import Mathlib

/-!
Verification development for the express-jobly data-access layer.

The repository's algorithmic core is embedded shallowly:
* `Company.checkCriteria`, `Company.createSearchSqlStatement`, `Company.filterQuery`
  from `src/models/company.js`;
* `Job.checkCriteria`, `Job.createSearchSqlStatement`, `Job.filterQuery`
  from the complete Job model in `src/unnamed/part_003` (that file also holds an
  earlier draft of the same model; the complete, later definition — the one with
  the dual-condition equity-flag check and full CRUD — is the one embedded);
* `User.updateJobApplication` from `src/unnamed/part_004`, with the applications
  table made explicit and the SQL `UPDATE` given its relational meaning
  (the statement has no `WHERE` clause, so it touches every row);
* `sqlForPartialUpdate`, whose implementation (`helpers/sql.js`) is not among
  the provided sources, is modelled from the spec (see its doc comment).

JavaScript values flowing through these functions are either numbers or strings
(query-string values arrive as strings; the model-level tests also pass
numbers), plus `NaN` as produced by `parseInt`; `undefined` is represented by
`Option`. Truthiness, strict equality, `parseInt`, string coercion and the
relational `>` are modelled for exactly these value shapes.
-/

/-- A JavaScript value as it occurs in this codebase: an (integer) number,
a string, or `NaN` (the result of a failed `parseInt`). -/
inductive JSVal : Type where
  | num (n : Int)
  | str (s : String)
  | nan
deriving DecidableEq

/-- JavaScript truthiness: `0`, `""` and `NaN` are falsy, everything else truthy. -/
def jsTruthy : JSVal → Bool
  | .num n => n != 0
  | .str s => s != ""
  | .nan => false

/-- Truthiness of a possibly-`undefined` value (`undefined` is falsy). -/
def jsTruthyOpt : Option JSVal → Bool
  | none => false
  | some v => jsTruthy v

/-- JavaScript strict equality `===` on our value shapes; `NaN === NaN` is false. -/
def jsStrictEq : JSVal → JSVal → Bool
  | .num a, .num b => a == b
  | .str a, .str b => a == b
  | _, _ => false

/-- `x === "<s>"` where `x` may be `undefined`. -/
def jsStrictEqOptStr (o : Option JSVal) (s : String) : Bool :=
  match o with
  | none => false
  | some v => jsStrictEq v (.str s)

/-- JavaScript string coercion (template-literal interpolation). -/
def jsToString : JSVal → String
  | .num n => toString n
  | .str s => s
  | .nan => "NaN"

/-- String coercion of a possibly-`undefined` value. -/
def jsToStringOpt : Option JSVal → String
  | none => "undefined"
  | some v => jsToString v

/-- Value of a decimal-digit list, most significant first. -/
def digitsToNat (ds : List Char) : Nat :=
  ds.foldl (fun acc c => acc * 10 + (c.toNat - '0'.toNat)) 0

/-- JavaScript `parseInt` on a string: skip leading whitespace, optional sign,
then the longest run of decimal digits; `NaN` when no digit is found. -/
def jsParseIntStr (s : String) : JSVal :=
  let cs := s.data.dropWhile Char.isWhitespace
  let signAndRest : Int × List Char :=
    match cs with
    | '-' :: rest => (-1, rest)
    | '+' :: rest => (1, rest)
    | _ => (1, cs)
  let ds := signAndRest.2.takeWhile Char.isDigit
  if ds.isEmpty then .nan
  else .num (signAndRest.1 * (digitsToNat ds : Int))

/-- JavaScript `parseInt` on one of our values (the argument is first coerced
to a string; for an integer number that round-trips to the same number). -/
def jsParseInt : JSVal → JSVal
  | .num n => .num n
  | .str s => jsParseIntStr s
  | .nan => .nan

/-- `parseInt` applied to a possibly-`undefined` value (`parseInt(undefined)` is `NaN`). -/
def jsParseIntOpt : Option JSVal → JSVal
  | none => .nan
  | some v => jsParseInt v

/-- JavaScript `ToNumber` on a string, for relational comparison: a trimmed
empty string is `0`, an optionally signed digit string is its value, anything
else is `NaN` (`none`). -/
def jsNumberOfStr (s : String) : Option Int :=
  let cs := (s.data.dropWhile Char.isWhitespace).reverse.dropWhile Char.isWhitespace |>.reverse
  match cs with
  | [] => some 0
  | _ =>
    let signAndRest : Int × List Char :=
      match cs with
      | '-' :: rest => (-1, rest)
      | '+' :: rest => (1, rest)
      | _ => (1, cs)
    if signAndRest.2 ≠ [] ∧ signAndRest.2.all Char.isDigit then
      some (signAndRest.1 * (digitsToNat signAndRest.2 : Int))
    else none

/-- JavaScript `ToNumber` for relational comparison; `none` stands for `NaN`. -/
def jsToNumber : JSVal → Option Int
  | .num n => some n
  | .str s => jsNumberOfStr s
  | .nan => none

/-- Code-unit lexicographic strict order on char lists, as JavaScript compares strings. -/
def charsLt : List Char → List Char → Bool
  | [], [] => false
  | [], _ :: _ => true
  | _ :: _, [] => false
  | a :: as, b :: bs =>
    if a.toNat < b.toNat then true
    else if a.toNat == b.toNat then charsLt as bs
    else false

/-- JavaScript `a > b`: both strings compare lexicographically, otherwise both
sides go through `ToNumber` and any `NaN` makes the comparison false. -/
def jsGt (a b : JSVal) : Bool :=
  match a, b with
  | .str x, .str y => charsLt y.data x.data
  | _, _ =>
    match jsToNumber a, jsToNumber b with
    | some x, some y => y < x
    | _, _ => false

/-- `a > b` where either side may be `undefined` (in which case it is false,
matching `undefined > x` in JavaScript). -/
def jsGtOpt : Option JSVal → Option JSVal → Bool
  | some a, some b => jsGt a b
  | _, _ => false

/-- Property access on an object modelled as an insertion-ordered association list. -/
def lookupKey {α : Type} (k : String) : List (String × α) → Option α
  | [] => none
  | (k', v) :: rest => if k' == k then some v else lookupKey k rest

/-- The keys of an object, in insertion order (as `for (let key in params)` visits them). -/
def keysOf {α : Type} (l : List (String × α)) : List String :=
  l.map Prod.fst

/-- The object with every entry for key `k` removed. -/
def removeKey {α : Type} (k : String) (l : List (String × α)) : List (String × α) :=
  l.filter (fun p => !(p.1 == k))

/-- JavaScript `Array.prototype.indexOf` on a string array: index of the first
occurrence, `-1` when absent. -/
def jsIndexOf (l : List String) (s : String) : Int :=
  match l with
  | [] => -1
  | x :: rest =>
    if x == s then 0
    else
      let r := jsIndexOf rest s
      if r < 0 then -1 else r + 1

/-- Errors thrown by the models (`BadRequestError` / `NotFoundError` from `expressError`). -/
inductive JErr : Type where
  | badRequest (msg : String)
  | notFound (msg : String)
deriving DecidableEq

deriving instance DecidableEq for Except

/-- A criteria / payload object received by the models. -/
abbrev Params := List (String × JSVal)

/-- A parameterized clause: the SQL text and the ordered bind values. -/
structure Clause where
  statement : String
  values : List JSVal
deriving DecidableEq

/-- The `for (let key in params)` loop shared by both `checkCriteria` helpers:
throw `BadRequestError("Invalid search criteria.")` at the first key whose
`indexOf` in the recognized-criteria array is negative. -/
def checkKeys (criteria : List String) : List String → Except JErr Unit
  | [] => .ok ()
  | k :: rest =>
    if jsIndexOf criteria k < 0 then .error (.badRequest "Invalid search criteria.")
    else checkKeys criteria rest

namespace Company

/-- `src/models/company.js` line 92: the recognized company filter keys. -/
def criteriaList : List String := ["name", "minEmployees", "maxEmployees"]

/-- `Company.checkCriteria` (`src/models/company.js` lines 91-104): reject any
unrecognized key; then, when both bounds are truthy, reject `min > max`. -/
def checkCriteria (params : Params) : Except JErr Unit :=
  match checkKeys criteriaList (keysOf params) with
  | .error e => .error e
  | .ok _ =>
    let minEmployees := lookupKey "minEmployees" params
    let maxEmployees := lookupKey "maxEmployees" params
    if jsTruthyOpt minEmployees && jsTruthyOpt maxEmployees then
      if jsGtOpt minEmployees maxEmployees then
        .error (.badRequest "Max employees must be greater than min employees")
      else .ok ()
    else .ok ()

/-- The body of `Company.createSearchSqlStatement` (`src/models/company.js`
lines 115-137) after the destructuring `const {name, minEmployees, maxEmployees}
= params`: three conditional pushes onto the fragment and value arrays, the
placeholder index taken from the fragment array's length before the push. -/
def searchFromLookups (name minEmployees maxEmployees : Option JSVal) : Clause :=
  let st0 : List String × List JSVal := ([], [])
  let st1 :=
    if jsTruthyOpt minEmployees then
      (st0.1 ++ ["num_employees >= $" ++ toString (st0.1.length + 1)],
       st0.2 ++ [jsParseIntOpt minEmployees])
    else st0
  let st2 :=
    if jsTruthyOpt maxEmployees then
      (st1.1 ++ ["num_employees <= $" ++ toString (st1.1.length + 1)],
       st1.2 ++ [jsParseIntOpt maxEmployees])
    else st1
  let st3 :=
    if jsTruthyOpt name then
      (st2.1 ++ ["name ILIKE $" ++ toString (st2.1.length + 1)],
       st2.2 ++ [.str ("%" ++ jsToStringOpt name ++ "%")])
    else st2
  { statement := String.intercalate " AND " st3.1, values := st3.2 }

/-- `Company.createSearchSqlStatement` (`src/models/company.js` lines 115-137). -/
def createSearchSqlStatement (params : Params) : Clause :=
  searchFromLookups (lookupKey "name" params) (lookupKey "minEmployees" params)
    (lookupKey "maxEmployees" params)

/-- The fixed text of `Company.filter`'s query template before `${statement}`
(`src/models/company.js` lines 71-78). -/
def queryHead : String :=
  "SELECT handle,\n                             name,\n                             description,\n                             num_employees AS \"numEmployees\",\n                             logo_url AS \"logoUrl\"\n                        FROM companies\n                        WHERE "

/-- The fixed text of `Company.filter`'s query template after `${statement}`. -/
def queryTail : String := "\n                      "

/-- `Company.filter` (`src/models/company.js` lines 67-81) up to the database
round-trip: validate, build the clause, and interpolate it into the query
template; the result is the SQL text handed to `db.query` with its bind values. -/
def filterQuery (params : Params) : Except JErr (String × List JSVal) :=
  match checkCriteria params with
  | .error e => .error e
  | .ok _ =>
    let c := createSearchSqlStatement params
    .ok (queryHead ++ c.statement ++ queryTail, c.values)

end Company

namespace Job

/-- `src/unnamed/part_003` line 154: the recognized job filter keys. -/
def criteriaList : List String := ["title", "minSalary", "hasEquity"]

/-- `Job.checkCriteria` (`src/unnamed/part_003` lines 153-166, the complete
Job model): reject any unrecognized key; then, when `hasEquity` is truthy,
reject it unless it is strictly equal to `"true"` or `"false"`. -/
def checkCriteria (params : Params) : Except JErr Unit :=
  match checkKeys criteriaList (keysOf params) with
  | .error e => .error e
  | .ok _ =>
    let hasEquity := lookupKey "hasEquity" params
    if jsTruthyOpt hasEquity then
      if !(jsStrictEqOptStr hasEquity "true") && !(jsStrictEqOptStr hasEquity "false") then
        .error (.badRequest "Invalid value for has equity")
      else .ok ()
    else .ok ()

/-- The body of `Job.createSearchSqlStatement` (`src/unnamed/part_003` lines
175-196) after the destructuring `const {title, minSalary, hasEquity} = params`:
`title` pushes an `ILIKE` fragment with the `%`-wrapped raw value, `minSalary`
pushes `salary >= $n` with the `parseInt` of the raw value, and
`hasEquity === "true"` pushes `equity > $n` with the string `"0"`. -/
def searchFromLookups (title minSalary hasEquity : Option JSVal) : Clause :=
  let st0 : List String × List JSVal := ([], [])
  let st1 :=
    if jsTruthyOpt title then
      (st0.1 ++ ["title ILIKE $" ++ toString (st0.1.length + 1)],
       st0.2 ++ [.str ("%" ++ jsToStringOpt title ++ "%")])
    else st0
  let st2 :=
    if jsTruthyOpt minSalary then
      (st1.1 ++ ["salary >= $" ++ toString (st1.1.length + 1)],
       st1.2 ++ [jsParseIntOpt minSalary])
    else st1
  let st3 :=
    if jsStrictEqOptStr hasEquity "true" then
      (st2.1 ++ ["equity > $" ++ toString (st2.1.length + 1)],
       st2.2 ++ [.str "0"])
    else st2
  { statement := String.intercalate " AND " st3.1, values := st3.2 }

/-- `Job.createSearchSqlStatement` (`src/unnamed/part_003` lines 175-196). -/
def createSearchSqlStatement (params : Params) : Clause :=
  searchFromLookups (lookupKey "title" params) (lookupKey "minSalary" params)
    (lookupKey "hasEquity" params)

/-- The fixed text of `Job.filter`'s query template before `${statement}`
(`src/unnamed/part_003` lines 134-140). -/
def queryHead : String :=
  "SELECT id,\n                             title,\n                             salary,\n                             equity,\n                             company_handle AS \"companyHandle\"\n                      FROM jobs\n                      WHERE "

/-- `Job.filter` (`src/unnamed/part_003` lines 130-143) up to the database
round-trip: validate, build the clause, and interpolate it into the query
template. -/
def filterQuery (params : Params) : Except JErr (String × List JSVal) :=
  match checkCriteria params with
  | .error e => .error e
  | .ok _ =>
    let c := createSearchSqlStatement params
    .ok (queryHead ++ c.statement, c.values)

end Job

namespace User

/-- A row of the `applications` table: `(username, job_id, current_state)`. -/
structure App where
  username : String
  jobId : Int
  currentState : String
deriving DecidableEq

/-- `User.updateJobApplication` (`src/unnamed/part_004` lines 207-228) against
an explicit applications table. The first query selects the rows matching
`username` and `job_id` and throws `NotFoundError` when `rows[0]` is absent.
The second query is `UPDATE applications SET current_state=$1 RETURNING ...`
with no `WHERE` clause, so it rewrites `current_state` on every row of the
table; the function returns `rows[0]` of that result (the first row of the
updated table, `none` when the table was empty) alongside the table it leaves
behind. -/
def updateJobApplication (apps : List App) (username : String) (jobId : Int)
    (newState : String) : Except JErr (Option App × List App) :=
  match (apps.filter (fun a => a.username == username && a.jobId == jobId)).head? with
  | none => .error (.notFound "Application not found")
  | some _ =>
    let updated := apps.map (fun a => { a with currentState := newState })
    .ok (updated.head?, updated)

end User

/-- The result of the partial-update builder: the SET-clause text and the bind values. -/
structure SetClause where
  setCols : String
  values : List JSVal
deriving DecidableEq

/-- Modelled from the spec: the storage column for a payload key, resolved via
the field map with fallback to the key itself when absent (spec 4.1: "resolve
the storage column name via `fieldMap` (fallback to the key itself if
absent)"). The implementation file `helpers/sql.js` is not among the provided
sources; only its test `src/helpers/sql.test.js` and its callers are. -/
def resolveColumn (fieldMap : List (String × String)) (k : String) : String :=
  match lookupKey k fieldMap with
  | some col => col
  | none => k

/-- Modelled from the spec: one SET fragment per payload entry in iteration
order, each of the form `"<column>"=$<i>` with `i` starting at the given index
and incrementing per entry (spec 4.1). -/
def buildSetFragments (fieldMap : List (String × String)) :
    List (String × JSVal) → Nat → List String
  | [], _ => []
  | (k, _) :: rest, i =>
    ("\"" ++ resolveColumn fieldMap k ++ "\"=$" ++ toString i)
      :: buildSetFragments fieldMap rest (i + 1)

/-- Modelled from the spec: `sqlForPartialUpdate` of `helpers/sql.js`, which is
not among the provided sources (only `src/helpers/sql.test.js` and the model
callers are). Spec 4.1: an empty payload fails with an `InvalidArgument` error;
otherwise each payload entry, in insertion order, yields the fragment
`"<column>"=$<i>` with 1-based contiguous indices, the fragments are joined
with `", "`, and the values are collected in the same order. -/
def sqlForPartialUpdate (payload : Params) (fieldMap : List (String × String)) :
    Except JErr SetClause :=
  if payload.isEmpty then .error (.badRequest "No data")
  else
    .ok { setCols := String.intercalate ", " (buildSetFragments fieldMap payload 1),
          values := payload.map Prod.snd }

/-- Fragment texts numbered with 1-based contiguous positional placeholders in
emission order: entry `i` (0-based) becomes `<part><dollar><i+1>`. -/
def numberedFrags (parts : List String) : List String :=
  parts.enum.map (fun p => p.2 ++ "$" ++ toString (p.1 + 1))

lemma jsIndexOf_neg_iff (l : List String) (s : String) : jsIndexOf l s < 0 ↔ s ∉ l := by
  induction l with
  | nil => simp [jsIndexOf]
  | cons x rest ih =>
    simp only [jsIndexOf]
    by_cases hx : x == s
    · have hxs : x = s := by simpa using hx
      simp [hx, hxs]
    · have hxs : ¬ s = x := fun h => (by simpa using hx : ¬ x = s) h.symm
      simp only [hx, Bool.false_eq_true, if_false]
      by_cases hr : jsIndexOf rest s < 0
      · have hnot : s ∉ rest := ih.mp hr
        simp only [hr, if_true]
        constructor
        · intro _
          simp [List.mem_cons, hxs, hnot]
        · intro _
          norm_num
      · have hmem : s ∈ rest := by
          by_contra hc
          exact hr (ih.mpr hc)
        simp only [hr, if_false]
        constructor
        · intro hlt
          exfalso
          omega
        · intro hni
          exact absurd (List.mem_cons.mpr (Or.inr hmem)) hni

lemma checkKeys_ok (crit : List String) (l : List String)
    (h : ∀ k ∈ l, k ∈ crit) : checkKeys crit l = .ok () := by
  induction l with
  | nil => rfl
  | cons x rest ih =>
    have hx : x ∈ crit := h x (by simp)
    have hneg : ¬ jsIndexOf crit x < 0 := by
      rw [jsIndexOf_neg_iff]; exact not_not.mpr hx
    simp only [checkKeys, hneg, if_false]
    exact ih (fun k hk => h k (by simp [hk]))

lemma checkKeys_error (crit : List String) (l : List String)
    (h : ∃ k ∈ l, k ∉ crit) : checkKeys crit l = .error (.badRequest "Invalid search criteria.") := by
  induction l with
  | nil => simp at h
  | cons x rest ih =>
    by_cases hx : jsIndexOf crit x < 0
    · simp [checkKeys, hx]
    · simp only [checkKeys, hx, if_false]
      apply ih
      rcases h with ⟨k, hk, hkc⟩
      rcases List.mem_cons.mp hk with hk | hk
      · exfalso
        exact hkc (by rwa [jsIndexOf_neg_iff, not_not, ← hk] at hx)
      · exact ⟨k, hk, hkc⟩

lemma lookupKey_mem {α : Type} {k : String} {v : α} {l : List (String × α)}
    (h : lookupKey k l = some v) : (k, v) ∈ l := by
  induction l with
  | nil => simp [lookupKey] at h
  | cons p rest ih =>
    rcases p with ⟨a, b⟩
    by_cases hp : a == k
    · have hk : a = k := by simpa using hp
      simp only [lookupKey, hp, if_true] at h
      injection h with h2
      subst h2
      exact List.mem_cons.mpr (Or.inl (by rw [hk]))
    · simp only [lookupKey, hp, if_false, Bool.false_eq_true] at h
      exact List.mem_cons.mpr (Or.inr (ih h))

lemma lookupKey_removeKey_self {α : Type} (k : String) (l : List (String × α)) :
    lookupKey k (removeKey k l) = none := by
  induction l with
  | nil => rfl
  | cons p rest ih =>
    by_cases hp : p.1 == k
    · simpa [removeKey, hp, List.filter] using ih
    · simpa [removeKey, lookupKey, hp, List.filter] using ih

lemma lookupKey_removeKey_ne {α : Type} {k k' : String} (h : ¬ k' = k) (l : List (String × α)) :
    lookupKey k' (removeKey k l) = lookupKey k' l := by
  induction l with
  | nil => rfl
  | cons p rest ih =>
    by_cases hp : p.1 == k
    · have hpk : p.1 = k := by simpa using hp
      have hpk' : ¬ (p.1 == k') = true := by
        simp only [beq_iff_eq, hpk]
        exact fun hc => h hc.symm
      simp only [removeKey, List.filter] at ih ⊢
      simp only [hp, Bool.not_true]
      rw [show lookupKey k' (p :: rest) = lookupKey k' rest by
        simp [lookupKey, hpk']]
      simpa [removeKey] using ih
    · simp only [removeKey, List.filter, hp, Bool.not_false]
      by_cases hq : p.1 == k'
      · simp [lookupKey, hq]
      · simp only [lookupKey, hq, Bool.false_eq_true, if_false]
        simpa [removeKey] using ih

lemma buildSetFragments_length (fm : List (String × String)) :
    ∀ (l : List (String × JSVal)) (i : Nat), (buildSetFragments fm l i).length = l.length
  | [], _ => rfl
  | _ :: rest, i => by
    simp only [buildSetFragments, List.length_cons, buildSetFragments_length fm rest (i + 1)]

lemma buildSetFragments_get (fm : List (String × String)) :
    ∀ (l : List (String × JSVal)) (i0 : Nat) (i : Nat)
      (hf : i < (buildSetFragments fm l i0).length) (hp : i < l.length),
      (buildSetFragments fm l i0).get ⟨i, hf⟩ =
        "\"" ++ resolveColumn fm (l.get ⟨i, hp⟩).1 ++ "\"=$" ++ toString (i0 + i) := by
  intro l
  induction l with
  | nil => intro i0 i hf hp; simp at hp
  | cons p rest ih =>
    intro i0 i hf hp
    cases i with
    | zero => simp [buildSetFragments]
    | succ j =>
      have hf2 : j < (buildSetFragments fm rest (i0 + 1)).length := by
        simpa [buildSetFragments] using hf
      have hp2 : j < rest.length := by simpa using hp
      have heq : (buildSetFragments fm (p :: rest) i0).get ⟨j + 1, hf⟩ =
          (buildSetFragments fm rest (i0 + 1)).get ⟨j, hf2⟩ := rfl
      rw [heq, ih (i0 + 1) j hf2 hp2]
      have harith : i0 + 1 + j = i0 + (j + 1) := by omega
      simp [harith]

example : sqlForPartialUpdate [("firstName", .str "Aliya"), ("age", .num 32)]
      [("firstName", "first_name"), ("age", "age")] =
    .ok { setCols := "\"first_name\"=$1, \"age\"=$2",
          values := [.str "Aliya", .num 32] } := by decide

example : User.updateJobApplication
      [{ username := "u1", jobId := 1, currentState := "applied" },
       { username := "u2", jobId := 2, currentState := "applied" }] "u1" 1 "accepted" =
    .ok (some { username := "u1", jobId := 1, currentState := "accepted" },
      [{ username := "u1", jobId := 1, currentState := "accepted" },
       { username := "u2", jobId := 2, currentState := "accepted" }]) := by decide

example : numberedFrags ["title ILIKE ", "salary >= "] =
    ["title ILIKE $1", "salary >= $2"] := by decide

example : Job.createSearchSqlStatement [("minSalary", .num 2), ("title", .str "j2")] =
    { statement := "title ILIKE $1 AND salary >= $2",
      values := [.str "%j2%", .num 2] } := by decide

example : Company.checkCriteria [("minEmployees", .num 50), ("maxEmployees", .num 10)] =
    .error (.badRequest "Max employees must be greater than min employees") := by decide

example : Company.checkCriteria [("minEmployees", .num 5), ("maxEmployees", .num 0)] =
    .ok () := by decide

example : Job.checkCriteria [("hasEquity", .str "false")] = .ok () := by decide

example : Job.checkCriteria [("hasEquity", .str "ofcourseduh")] =
    .error (.badRequest "Invalid value for has equity") := by decide

example : Job.checkCriteria [("coffeeMachines", .num 2), ("title", .str "j2")] =
    .error (.badRequest "Invalid search criteria.") := by decide

/-! ## Claim theorems -/

/-- C1: for every non-empty update payload and every field map, the
partial-update builder produces exactly one fragment per payload entry, the
`i`-th (1-based) fragment being `"<column>"=$i` with the column resolved via the
field map (fallback to the key), fragments joined by `", "`, and the value list
is the payload's values in iteration order, so fragment `i` binds value `i`. -/
theorem sqlForPartialUpdate_builds_indexed_fragments (payload : Params)
    (fieldMap : List (String × String)) (h : payload ≠ []) :
    ∃ frags : List String,
      sqlForPartialUpdate payload fieldMap =
        .ok { setCols := String.intercalate ", " frags, values := payload.map Prod.snd } ∧
      frags.length = payload.length ∧
      (payload.map Prod.snd).length = payload.length ∧
      ∀ (i : Nat) (hf : i < frags.length) (hp : i < payload.length),
        frags.get ⟨i, hf⟩ =
          "\"" ++ resolveColumn fieldMap (payload.get ⟨i, hp⟩).1 ++ "\"=$" ++ toString (i + 1) := by
  refine ⟨buildSetFragments fieldMap payload 1, ?_, ?_, ?_, ?_⟩
  · have hne : payload.isEmpty = false := by
      cases payload with
      | nil => exact absurd rfl h
      | cons p rest => rfl
    simp [sqlForPartialUpdate, hne]
  · exact buildSetFragments_length fieldMap payload 1
  · exact List.length_map payload Prod.snd
  · intro i hf hp
    rw [buildSetFragments_get fieldMap payload 1 i hf hp]
    have : 1 + i = i + 1 := Nat.add_comm 1 i
    rw [this]

/-- Witness for C1 at the spec's own example: the payload
`{firstName: "Aliya", age: 32}` with field map `{firstName: first_name, age: age}`
yields `setCols` `"first_name"=$1, "age"=$2` and values `["Aliya", 32]`. -/
theorem sqlForPartialUpdate_builds_indexed_fragments_witness :
    sqlForPartialUpdate [("firstName", .str "Aliya"), ("age", .num 32)]
        [("firstName", "first_name"), ("age", "age")] =
      .ok { setCols := "\"first_name\"=$1, \"age\"=$2",
            values := [.str "Aliya", .num 32] } ∧
    (∃ frags : List String,
      sqlForPartialUpdate [("firstName", JSVal.str "Aliya"), ("age", JSVal.num 32)]
          [("firstName", "first_name"), ("age", "age")] =
        .ok { setCols := String.intercalate ", " frags,
              values := [("firstName", JSVal.str "Aliya"), ("age", JSVal.num 32)].map Prod.snd } ∧
      frags.length = 2 ∧
      ([("firstName", JSVal.str "Aliya"), ("age", JSVal.num 32)].map Prod.snd).length = 2 ∧
      ∀ (i : Nat) (hf : i < frags.length)
        (hp : i < ([("firstName", JSVal.str "Aliya"), ("age", JSVal.num 32)] : Params).length),
        frags.get ⟨i, hf⟩ =
          "\"" ++ resolveColumn [("firstName", "first_name"), ("age", "age")]
              (([("firstName", JSVal.str "Aliya"), ("age", JSVal.num 32)] : Params).get ⟨i, hp⟩).1
            ++ "\"=$" ++ toString (i + 1)) :=
  ⟨by decide,
   sqlForPartialUpdate_builds_indexed_fragments
     [("firstName", .str "Aliya"), ("age", .num 32)]
     [("firstName", "first_name"), ("age", "age")] (by decide)⟩

/-- C6: for every field map, the partial-update builder fails with a
bad-request (`InvalidArgument`) error on an empty payload; it is never a no-op. -/
theorem sqlForPartialUpdate_rejects_empty_payload (fieldMap : List (String × String)) :
    sqlForPartialUpdate [] fieldMap = .error (.badRequest "No data") := rfl

/-- C9: when an application row exists for `(username, jobId)`,
`User.updateJobApplication` executes an `UPDATE` with no row restriction: every
row of the applications table gets `current_state = newState`, and the returned
record is the first row the database lists among the (all) updated rows. -/
theorem updateJobApplication_updates_every_row (apps : List User.App)
    (username : String) (jobId : Int) (newState : String)
    (h : ∃ a ∈ apps, a.username = username ∧ a.jobId = jobId) :
    User.updateJobApplication apps username jobId newState =
      .ok ((apps.map (fun a => { a with currentState := newState })).head?,
           apps.map (fun a => { a with currentState := newState })) ∧
    ∀ r ∈ apps.map (fun a : User.App => { a with currentState := newState }),
      r.currentState = newState := by
  obtain ⟨a, ha, h1, h2⟩ := h
  have hmem : a ∈ apps.filter (fun a => a.username == username && a.jobId == jobId) :=
    List.mem_filter.mpr ⟨ha, by simp [h1, h2]⟩
  constructor
  · cases hfl : apps.filter (fun a => a.username == username && a.jobId == jobId) with
    | nil => rw [hfl] at hmem; simp at hmem
    | cons b bs =>
      simp only [User.updateJobApplication, hfl, List.head?]
  · intro r hr
    rcases List.mem_map.mp hr with ⟨s, _, hs⟩
    rw [← hs]

/-- Witness for C9: on a two-row applications table, updating the state of the
application `("u1", 1)` to `"accepted"` rewrites the state of both rows,
including the unrelated row `("u2", 2)`, and returns the table's first row. -/
theorem updateJobApplication_updates_every_row_witness :
    (∃ a ∈ [{ username := "u1", jobId := 1, currentState := "applied" },
            { username := "u2", jobId := 2, currentState := "applied" }],
       User.App.username a = "u1" ∧ User.App.jobId a = 1) ∧
    (User.updateJobApplication
        [{ username := "u1", jobId := 1, currentState := "applied" },
         { username := "u2", jobId := 2, currentState := "applied" }] "u1" 1 "accepted" =
      .ok (([{ username := "u1", jobId := 1, currentState := "applied" },
             { username := "u2", jobId := 2, currentState := "applied" }].map
              (fun a : User.App => { a with currentState := "accepted" })).head?,
           [{ username := "u1", jobId := 1, currentState := "applied" },
            { username := "u2", jobId := 2, currentState := "applied" }].map
             (fun a : User.App => { a with currentState := "accepted" })) ∧
     ∀ r ∈ [{ username := "u1", jobId := 1, currentState := "applied" },
            { username := "u2", jobId := 2, currentState := "applied" }].map
             (fun a : User.App => { a with currentState := "accepted" }),
       r.currentState = "accepted") :=
  ⟨⟨{ username := "u1", jobId := 1, currentState := "applied" }, by decide⟩,
   updateJobApplication_updates_every_row
     [{ username := "u1", jobId := 1, currentState := "applied" },
      { username := "u2", jobId := 2, currentState := "applied" }] "u1" 1 "accepted"
     ⟨{ username := "u1", jobId := 1, currentState := "applied" }, by decide⟩⟩

lemma jsStrictEq_str_iff (v : JSVal) (s : String) :
    jsStrictEq v (.str s) = true ↔ v = .str s := by
  cases v with
  | num n => simp [jsStrictEq]
  | str t => simp [jsStrictEq]
  | nan => simp [jsStrictEq]

/-- C2: on a job criteria map whose keys are all recognized and which carries a
`hasEquity` entry, validation succeeds exactly when the raw value is the literal
`"true"`, the literal `"false"`, or a falsy value; any other (truthy) literal —
`"ofcourseduh"` included — fails with a bad-request error. In particular
`"false"` passes validation. -/
theorem job_checkCriteria_equity_flag (params : Params) (v : JSVal)
    (hkeys : ∀ k ∈ keysOf params, k ∈ Job.criteriaList)
    (hlook : lookupKey "hasEquity" params = some v) :
    Job.checkCriteria params = .ok () ↔
      (v = JSVal.str "true" ∨ v = JSVal.str "false" ∨ jsTruthy v = false) := by
  have hck := checkKeys_ok Job.criteriaList (keysOf params) hkeys
  simp only [Job.checkCriteria, hck, hlook, jsTruthyOpt, jsStrictEqOptStr]
  cases ht : jsTruthy v with
  | false => simp [ht]
  | true =>
    by_cases h1 : v = JSVal.str "true"
    · simp [ht, h1, jsStrictEq]
    · by_cases h2 : v = JSVal.str "false"
      · simp [ht, h2, jsStrictEq]
      · have e1 : jsStrictEq v (JSVal.str "true") = false := by
          cases hb : jsStrictEq v (JSVal.str "true")
          · rfl
          · exact absurd ((jsStrictEq_str_iff v "true").mp hb) h1
        have e2 : jsStrictEq v (JSVal.str "false") = false := by
          cases hb : jsStrictEq v (JSVal.str "false")
          · rfl
          · exact absurd ((jsStrictEq_str_iff v "false").mp hb) h2
        simp [ht, e1, e2, h1, h2]

/-- Witness for C2: `hasEquity: "false"` passes `Job.checkCriteria` and
`hasEquity: "ofcourseduh"` does not. -/
theorem job_checkCriteria_equity_flag_witness :
    Job.checkCriteria [("hasEquity", JSVal.str "false")] = .ok () ∧
    ¬ Job.checkCriteria [("hasEquity", JSVal.str "ofcourseduh")] = .ok () :=
  ⟨(job_checkCriteria_equity_flag [("hasEquity", .str "false")] (.str "false")
      (by decide) (by decide)).mpr (Or.inr (Or.inl rfl)),
   fun h => absurd ((job_checkCriteria_equity_flag [("hasEquity", .str "ofcourseduh")]
      (.str "ofcourseduh") (by decide) (by decide)).mp h) (by decide)⟩

/-- C4 (amended): on a company criteria map whose keys are all recognized and
which carries both bounds, validation succeeds exactly when it is NOT the case
that both raw bounds are truthy and the JavaScript comparison `min > max`
holds. When either bound is falsy (e.g. the number `0`) the consistency check
is skipped even if the lower bound exceeds the upper. -/
theorem company_checkCriteria_bounds (params : Params) (mv xv : JSVal)
    (hkeys : ∀ k ∈ keysOf params, k ∈ Company.criteriaList)
    (hmin : lookupKey "minEmployees" params = some mv)
    (hmax : lookupKey "maxEmployees" params = some xv) :
    Company.checkCriteria params = .ok () ↔
      ¬ (jsTruthy mv = true ∧ jsTruthy xv = true ∧ jsGt mv xv = true) := by
  have hck := checkKeys_ok Company.criteriaList (keysOf params) hkeys
  simp only [Company.checkCriteria, hck, hmin, hmax, jsTruthyOpt, jsGtOpt]
  cases h1 : jsTruthy mv with
  | false => simp [h1]
  | true =>
    cases h2 : jsTruthy xv with
    | false => simp [h2]
    | true =>
      cases h3 : jsGt mv xv with
      | false => simp [h3]
      | true => simp [h3]

/-- Counterexample to C4 as stated: with `minEmployees: 5` and
`maxEmployees: 0` the lower bound exceeds the upper (`5 > 0`), yet
`Company.checkCriteria` succeeds, because the number `0` is falsy and the
truthiness-gated bound check is skipped. -/
theorem company_checkCriteria_bounds_counterexample :
    jsGt (JSVal.num 5) (JSVal.num 0) = true ∧
    Company.checkCriteria [("minEmployees", JSVal.num 5), ("maxEmployees", JSVal.num 0)] =
      .ok () := by decide

/-- Witness for C4 (amended): `{minEmployees: 50, maxEmployees: 10}` fails
validation while `{minEmployees: 10, maxEmployees: 50}` passes. -/
theorem company_checkCriteria_bounds_witness :
    ¬ Company.checkCriteria [("minEmployees", JSVal.num 50), ("maxEmployees", JSVal.num 10)] =
        .ok () ∧
    Company.checkCriteria [("minEmployees", JSVal.num 10), ("maxEmployees", JSVal.num 50)] =
      .ok () :=
  ⟨fun h => (company_checkCriteria_bounds
      [("minEmployees", .num 50), ("maxEmployees", .num 10)] (.num 50) (.num 10)
      (by decide) (by decide) (by decide)).mp h (by decide),
   (company_checkCriteria_bounds
      [("minEmployees", .num 10), ("maxEmployees", .num 50)] (.num 10) (.num 50)
      (by decide) (by decide) (by decide)).mpr (by decide)⟩

/-- C5: any criteria map containing a key outside the entity's recognized set
(companies: name/minEmployees/maxEmployees; jobs: title/minSalary/hasEquity)
fails validation with the bad-request error "Invalid search criteria.", and the
corresponding `filter` pipeline fails the same way before any query text or
bind values are produced. -/
theorem checkCriteria_rejects_unrecognized_keys :
    (∀ params : Params, (∃ k ∈ keysOf params, k ∉ Company.criteriaList) →
       Company.checkCriteria params = .error (.badRequest "Invalid search criteria.") ∧
       Company.filterQuery params = .error (.badRequest "Invalid search criteria.")) ∧
    (∀ params : Params, (∃ k ∈ keysOf params, k ∉ Job.criteriaList) →
       Job.checkCriteria params = .error (.badRequest "Invalid search criteria.") ∧
       Job.filterQuery params = .error (.badRequest "Invalid search criteria.")) := by
  constructor
  · intro params h
    have hck := checkKeys_error Company.criteriaList (keysOf params) h
    have hcc : Company.checkCriteria params = .error (.badRequest "Invalid search criteria.") := by
      simp [Company.checkCriteria, hck]
    exact ⟨hcc, by simp [Company.filterQuery, hcc]⟩
  · intro params h
    have hck := checkKeys_error Job.criteriaList (keysOf params) h
    have hcc : Job.checkCriteria params = .error (.badRequest "Invalid search criteria.") := by
      simp [Job.checkCriteria, hck]
    exact ⟨hcc, by simp [Job.filterQuery, hcc]⟩

/-- Witness for C5: `{coffeeMachines: 2}` is rejected by the company pipeline
and `{coffeeMachines: 2, title: "j2"}` by the job pipeline. -/
theorem checkCriteria_rejects_unrecognized_keys_witness :
    (Company.checkCriteria [("coffeeMachines", JSVal.num 2)] =
        .error (.badRequest "Invalid search criteria.") ∧
     Company.filterQuery [("coffeeMachines", JSVal.num 2)] =
        .error (.badRequest "Invalid search criteria.")) ∧
    (Job.checkCriteria [("coffeeMachines", JSVal.num 2), ("title", JSVal.str "j2")] =
        .error (.badRequest "Invalid search criteria.") ∧
     Job.filterQuery [("coffeeMachines", JSVal.num 2), ("title", JSVal.str "j2")] =
        .error (.badRequest "Invalid search criteria.")) :=
  ⟨checkCriteria_rejects_unrecognized_keys.1 [("coffeeMachines", .num 2)]
     ⟨"coffeeMachines", by decide, by decide⟩,
   checkCriteria_rejects_unrecognized_keys.2 [("coffeeMachines", .num 2), ("title", .str "j2")]
     ⟨"coffeeMachines", by decide, by decide⟩⟩

/-- Counterexample to C3 as stated: for the input `{minSalary: 2, title: "j2"}`
the job clause builder does NOT produce the bind-value list `[2, "%j2%"]` — the
entity's fixed precedence puts the title fragment first, so the values come out
in the opposite order. -/
theorem job_search_value_order_counterexample :
    (Job.createSearchSqlStatement [("minSalary", JSVal.num 2), ("title", JSVal.str "j2")]).values ≠
      [JSVal.num 2, JSVal.str "%j2%"] := by decide

/-- C3 (amended): for the input `{minSalary: 2, title: "j2"}` the job clause
builder produces the two fragments `title ILIKE $1` and `salary >= $2` joined
by `" AND "`, with the bind-value list `["%j2%", 2]` in that order — the value
order matching the entity's fixed criterion precedence (title before
minSalary) and the emitted placeholder numbers. -/
theorem job_search_value_order :
    Job.createSearchSqlStatement [("minSalary", JSVal.num 2), ("title", JSVal.str "j2")] =
      { statement := "title ILIKE $1 AND salary >= $2",
        values := [JSVal.str "%j2%", JSVal.num 2] } := by decide

/-- C7: on a validated job criteria map, `hasEquity: "true"` appends the
fragment `equity > $n` — `n` being one past the number of preceding fragments,
so fragment `n` binds value `n` — with the bind value `"0"`; `hasEquity:
"false"` contributes nothing: the builder's output is identical to its output
on the same map with the `hasEquity` entry removed. -/
theorem job_search_equity_fragment (params : Params)
    (_hok : Job.checkCriteria params = .ok ()) :
    (lookupKey "hasEquity" params = some (JSVal.str "true") →
      ∃ parts : List String, ∃ vals : List JSVal,
        parts.length = vals.length ∧
        Job.createSearchSqlStatement params =
          { statement := String.intercalate " AND "
              (parts ++ ["equity > $" ++ toString (parts.length + 1)]),
            values := vals ++ [JSVal.str "0"] }) ∧
    (lookupKey "hasEquity" params = some (JSVal.str "false") →
      Job.createSearchSqlStatement params =
        Job.createSearchSqlStatement (removeKey "hasEquity" params)) := by
  constructor
  · intro hlook
    simp only [Job.createSearchSqlStatement, hlook]
    cases h1 : jsTruthyOpt (lookupKey "title" params) with
    | false =>
      cases h2 : jsTruthyOpt (lookupKey "minSalary" params) with
      | false =>
        refine ⟨[], [], rfl, ?_⟩
        simp only [Job.searchFromLookups, h1, h2, jsStrictEqOptStr, jsStrictEq,
          Bool.false_eq_true, if_false, if_true, List.nil_append, List.length_nil,
          List.length_cons]
        rfl
      | true =>
        refine ⟨["salary >= $1"], [jsParseIntOpt (lookupKey "minSalary" params)], rfl, ?_⟩
        simp only [Job.searchFromLookups, h1, h2, jsStrictEqOptStr, jsStrictEq,
          Bool.false_eq_true, if_false, if_true, List.nil_append, List.length_nil,
          List.length_cons]
        rfl
    | true =>
      cases h2 : jsTruthyOpt (lookupKey "minSalary" params) with
      | false =>
        refine ⟨["title ILIKE $1"],
          [JSVal.str ("%" ++ jsToStringOpt (lookupKey "title" params) ++ "%")], rfl, ?_⟩
        simp only [Job.searchFromLookups, h1, h2, jsStrictEqOptStr, jsStrictEq,
          Bool.false_eq_true, if_false, if_true, List.nil_append, List.length_nil,
          List.length_cons]
        rfl
      | true =>
        refine ⟨["title ILIKE $1", "salary >= $2"],
          [JSVal.str ("%" ++ jsToStringOpt (lookupKey "title" params) ++ "%"),
           jsParseIntOpt (lookupKey "minSalary" params)], rfl, ?_⟩
        simp only [Job.searchFromLookups, h1, h2, jsStrictEqOptStr, jsStrictEq,
          Bool.false_eq_true, if_false, if_true, List.nil_append, List.length_nil,
          List.length_cons]
        rfl
  · intro hlook
    have h1 : lookupKey "title" (removeKey "hasEquity" params) =
        lookupKey "title" params := lookupKey_removeKey_ne (by decide) params
    have h2 : lookupKey "minSalary" (removeKey "hasEquity" params) =
        lookupKey "minSalary" params := lookupKey_removeKey_ne (by decide) params
    have h3 : lookupKey "hasEquity" (removeKey "hasEquity" params) = none :=
      lookupKey_removeKey_self "hasEquity" params
    simp only [Job.createSearchSqlStatement, h1, h2, h3, hlook]
    simp [Job.searchFromLookups, jsStrictEqOptStr, jsStrictEq]

/-- Witness for C7: with `{hasEquity: "true"}` alone the clause is
`equity > $1` bound to `"0"`; with `{title: "j", hasEquity: "false"}` the
output equals the output on `{title: "j"}`. -/
theorem job_search_equity_fragment_witness :
    Job.checkCriteria [("hasEquity", JSVal.str "true")] = .ok () ∧
    (∃ parts : List String, ∃ vals : List JSVal,
      parts.length = vals.length ∧
      Job.createSearchSqlStatement [("hasEquity", JSVal.str "true")] =
        { statement := String.intercalate " AND "
            (parts ++ ["equity > $" ++ toString (parts.length + 1)]),
          values := vals ++ [JSVal.str "0"] }) ∧
    Job.createSearchSqlStatement [("title", JSVal.str "j"), ("hasEquity", JSVal.str "false")] =
      Job.createSearchSqlStatement
        (removeKey "hasEquity" [("title", JSVal.str "j"), ("hasEquity", JSVal.str "false")]) :=
  ⟨by decide,
   (job_search_equity_fragment [("hasEquity", .str "true")] (by decide)).1 (by decide),
   (job_search_equity_fragment [("title", .str "j"), ("hasEquity", .str "false")]
      (by decide)).2 (by decide)⟩

/-- C8: for every criteria map that passes validation, the clause built by
either entity's filter builder decomposes into fragments whose placeholder
indices are 1-based, contiguous and gap-free in emission order, whose count
equals the bind-value count (so value `i` binds placeholder `$i`), and whose
order follows the entity's declared criterion precedence (companies:
minEmployees, then maxEmployees, then name; jobs: title, then minSalary, then
hasEquity). -/
theorem filter_clause_placeholder_invariant :
    (∀ params : Params, Company.checkCriteria params = .ok () →
       ∃ parts : List String, ∃ b1 b2 b3 : Bool,
         parts = (if b1 then ["num_employees >= "] else []) ++
                 (if b2 then ["num_employees <= "] else []) ++
                 (if b3 then ["name ILIKE "] else []) ∧
         (Company.createSearchSqlStatement params).statement =
           String.intercalate " AND " (numberedFrags parts) ∧
         (Company.createSearchSqlStatement params).values.length = parts.length) ∧
    (∀ params : Params, Job.checkCriteria params = .ok () →
       ∃ parts : List String, ∃ b1 b2 b3 : Bool,
         parts = (if b1 then ["title ILIKE "] else []) ++
                 (if b2 then ["salary >= "] else []) ++
                 (if b3 then ["equity > "] else []) ∧
         (Job.createSearchSqlStatement params).statement =
           String.intercalate " AND " (numberedFrags parts) ∧
         (Job.createSearchSqlStatement params).values.length = parts.length) := by
  constructor
  · intro params _
    simp only [Company.createSearchSqlStatement]
    cases h1 : jsTruthyOpt (lookupKey "minEmployees" params) with
    | false =>
      cases h2 : jsTruthyOpt (lookupKey "maxEmployees" params) with
      | false =>
        cases h3 : jsTruthyOpt (lookupKey "name" params) with
        | false =>
          refine ⟨[], false, false, false, rfl, ?_, ?_⟩
          · simp only [Company.searchFromLookups, h1, h2, h3, Bool.false_eq_true,
              if_false, if_true, List.nil_append]
            rfl
          · simp [Company.searchFromLookups, h1, h2, h3]
        | true =>
          refine ⟨["name ILIKE "], false, false, true, rfl, ?_, ?_⟩
          · simp only [Company.searchFromLookups, h1, h2, h3, Bool.false_eq_true,
              if_false, if_true, List.nil_append]
            rfl
          · simp [Company.searchFromLookups, h1, h2, h3]
      | true =>
        cases h3 : jsTruthyOpt (lookupKey "name" params) with
        | false =>
          refine ⟨["num_employees <= "], false, true, false, rfl, ?_, ?_⟩
          · simp only [Company.searchFromLookups, h1, h2, h3, Bool.false_eq_true,
              if_false, if_true, List.nil_append]
            rfl
          · simp [Company.searchFromLookups, h1, h2, h3]
        | true =>
          refine ⟨["num_employees <= ", "name ILIKE "], false, true, true, rfl, ?_, ?_⟩
          · simp only [Company.searchFromLookups, h1, h2, h3, Bool.false_eq_true,
              if_false, if_true, List.nil_append]
            rfl
          · simp [Company.searchFromLookups, h1, h2, h3]
    | true =>
      cases h2 : jsTruthyOpt (lookupKey "maxEmployees" params) with
      | false =>
        cases h3 : jsTruthyOpt (lookupKey "name" params) with
        | false =>
          refine ⟨["num_employees >= "], true, false, false, rfl, ?_, ?_⟩
          · simp only [Company.searchFromLookups, h1, h2, h3, Bool.false_eq_true,
              if_false, if_true, List.nil_append]
            rfl
          · simp [Company.searchFromLookups, h1, h2, h3]
        | true =>
          refine ⟨["num_employees >= ", "name ILIKE "], true, false, true, rfl, ?_, ?_⟩
          · simp only [Company.searchFromLookups, h1, h2, h3, Bool.false_eq_true,
              if_false, if_true, List.nil_append]
            rfl
          · simp [Company.searchFromLookups, h1, h2, h3]
      | true =>
        cases h3 : jsTruthyOpt (lookupKey "name" params) with
        | false =>
          refine ⟨["num_employees >= ", "num_employees <= "], true, true, false, rfl, ?_, ?_⟩
          · simp only [Company.searchFromLookups, h1, h2, h3, Bool.false_eq_true,
              if_false, if_true, List.nil_append]
            rfl
          · simp [Company.searchFromLookups, h1, h2, h3]
        | true =>
          refine ⟨["num_employees >= ", "num_employees <= ", "name ILIKE "], true, true, true, rfl, ?_, ?_⟩
          · simp only [Company.searchFromLookups, h1, h2, h3, Bool.false_eq_true,
              if_false, if_true, List.nil_append]
            rfl
          · simp [Company.searchFromLookups, h1, h2, h3]
  · intro params _
    simp only [Job.createSearchSqlStatement]
    cases h1 : jsTruthyOpt (lookupKey "title" params) with
    | false =>
      cases h2 : jsTruthyOpt (lookupKey "minSalary" params) with
      | false =>
        cases h3 : jsStrictEqOptStr (lookupKey "hasEquity" params) "true" with
        | false =>
          refine ⟨[], false, false, false, rfl, ?_, ?_⟩
          · simp only [Job.searchFromLookups, h1, h2, h3, Bool.false_eq_true,
              if_false, if_true, List.nil_append]
            rfl
          · simp [Job.searchFromLookups, h1, h2, h3]
        | true =>
          refine ⟨["equity > "], false, false, true, rfl, ?_, ?_⟩
          · simp only [Job.searchFromLookups, h1, h2, h3, Bool.false_eq_true,
              if_false, if_true, List.nil_append]
            rfl
          · simp [Job.searchFromLookups, h1, h2, h3]
      | true =>
        cases h3 : jsStrictEqOptStr (lookupKey "hasEquity" params) "true" with
        | false =>
          refine ⟨["salary >= "], false, true, false, rfl, ?_, ?_⟩
          · simp only [Job.searchFromLookups, h1, h2, h3, Bool.false_eq_true,
              if_false, if_true, List.nil_append]
            rfl
          · simp [Job.searchFromLookups, h1, h2, h3]
        | true =>
          refine ⟨["salary >= ", "equity > "], false, true, true, rfl, ?_, ?_⟩
          · simp only [Job.searchFromLookups, h1, h2, h3, Bool.false_eq_true,
              if_false, if_true, List.nil_append]
            rfl
          · simp [Job.searchFromLookups, h1, h2, h3]
    | true =>
      cases h2 : jsTruthyOpt (lookupKey "minSalary" params) with
      | false =>
        cases h3 : jsStrictEqOptStr (lookupKey "hasEquity" params) "true" with
        | false =>
          refine ⟨["title ILIKE "], true, false, false, rfl, ?_, ?_⟩
          · simp only [Job.searchFromLookups, h1, h2, h3, Bool.false_eq_true,
              if_false, if_true, List.nil_append]
            rfl
          · simp [Job.searchFromLookups, h1, h2, h3]
        | true =>
          refine ⟨["title ILIKE ", "equity > "], true, false, true, rfl, ?_, ?_⟩
          · simp only [Job.searchFromLookups, h1, h2, h3, Bool.false_eq_true,
              if_false, if_true, List.nil_append]
            rfl
          · simp [Job.searchFromLookups, h1, h2, h3]
      | true =>
        cases h3 : jsStrictEqOptStr (lookupKey "hasEquity" params) "true" with
        | false =>
          refine ⟨["title ILIKE ", "salary >= "], true, true, false, rfl, ?_, ?_⟩
          · simp only [Job.searchFromLookups, h1, h2, h3, Bool.false_eq_true,
              if_false, if_true, List.nil_append]
            rfl
          · simp [Job.searchFromLookups, h1, h2, h3]
        | true =>
          refine ⟨["title ILIKE ", "salary >= ", "equity > "], true, true, true, rfl, ?_, ?_⟩
          · simp only [Job.searchFromLookups, h1, h2, h3, Bool.false_eq_true,
              if_false, if_true, List.nil_append]
            rfl
          · simp [Job.searchFromLookups, h1, h2, h3]

/-- Witness for C8: the invariant instantiated on the validated maps
`{minEmployees: 2, name: "c"}` (companies) and `{title: "j", hasEquity: "true"}`
(jobs). -/
theorem filter_clause_placeholder_invariant_witness :
    (Company.checkCriteria [("minEmployees", JSVal.num 2), ("name", JSVal.str "c")] = .ok () ∧
     ∃ parts : List String, ∃ b1 b2 b3 : Bool,
       parts = (if b1 then ["num_employees >= "] else []) ++
               (if b2 then ["num_employees <= "] else []) ++
               (if b3 then ["name ILIKE "] else []) ∧
       (Company.createSearchSqlStatement
           [("minEmployees", JSVal.num 2), ("name", JSVal.str "c")]).statement =
         String.intercalate " AND " (numberedFrags parts) ∧
       (Company.createSearchSqlStatement
           [("minEmployees", JSVal.num 2), ("name", JSVal.str "c")]).values.length =
         parts.length) ∧
    (Job.checkCriteria [("title", JSVal.str "j"), ("hasEquity", JSVal.str "true")] = .ok () ∧
     ∃ parts : List String, ∃ b1 b2 b3 : Bool,
       parts = (if b1 then ["title ILIKE "] else []) ++
               (if b2 then ["salary >= "] else []) ++
               (if b3 then ["equity > "] else []) ∧
       (Job.createSearchSqlStatement
           [("title", JSVal.str "j"), ("hasEquity", JSVal.str "true")]).statement =
         String.intercalate " AND " (numberedFrags parts) ∧
       (Job.createSearchSqlStatement
           [("title", JSVal.str "j"), ("hasEquity", JSVal.str "true")]).values.length =
         parts.length) :=
  ⟨⟨by decide, filter_clause_placeholder_invariant.1
      [("minEmployees", JSVal.num 2), ("name", JSVal.str "c")] (by decide)⟩,
   ⟨by decide, filter_clause_placeholder_invariant.2
      [("title", JSVal.str "j"), ("hasEquity", JSVal.str "true")] (by decide)⟩⟩

/-- C10: a recognized company criterion with a JavaScript-falsy raw value (the
number `0`, the empty string) passes validation and contributes no fragment and
no bind value. In particular `minEmployees: 0` disables the min/max
bound-consistency check, so `{minEmployees: 0, maxEmployees: m}` passes for
every `m`; and an all-falsy criteria map yields the empty clause, which
`Company.filter` still interpolates into its query template right after
`WHERE`. -/
theorem company_falsy_criteria :
    (∀ m : JSVal,
       Company.checkCriteria [("minEmployees", JSVal.num 0), ("maxEmployees", m)] = .ok ()) ∧
    (∀ params : Params,
       (∀ k ∈ keysOf params, k ∈ Company.criteriaList) →
       (∀ p ∈ params, jsTruthy p.2 = false) →
       Company.checkCriteria params = .ok () ∧
       Company.createSearchSqlStatement params = { statement := "", values := [] } ∧
       Company.filterQuery params = .ok (Company.queryHead ++ "" ++ Company.queryTail, [])) := by
  constructor
  · intro m
    rfl
  · intro params hkeys hfalsy
    have hck := checkKeys_ok Company.criteriaList (keysOf params) hkeys
    have hname : jsTruthyOpt (lookupKey "name" params) = false := by
      cases hl : lookupKey "name" params with
      | none => rfl
      | some v => simpa [jsTruthyOpt] using hfalsy _ (lookupKey_mem hl)
    have hmin : jsTruthyOpt (lookupKey "minEmployees" params) = false := by
      cases hl : lookupKey "minEmployees" params with
      | none => rfl
      | some v => simpa [jsTruthyOpt] using hfalsy _ (lookupKey_mem hl)
    have hmax : jsTruthyOpt (lookupKey "maxEmployees" params) = false := by
      cases hl : lookupKey "maxEmployees" params with
      | none => rfl
      | some v => simpa [jsTruthyOpt] using hfalsy _ (lookupKey_mem hl)
    have hcc : Company.checkCriteria params = .ok () := by
      simp [Company.checkCriteria, hck, hmin, hmax]
    have hcs : Company.createSearchSqlStatement params = { statement := "", values := [] } := by
      simp only [Company.createSearchSqlStatement, Company.searchFromLookups, hname, hmin, hmax,
        Bool.false_eq_true, if_false]
      rfl
    refine ⟨hcc, hcs, ?_⟩
    simp [Company.filterQuery, hcc, hcs]

/-- Witness for C10: `{minEmployees: 0, maxEmployees: 7}` passes validation,
and the all-falsy map `{minEmployees: 0, name: ""}` passes validation, builds
the empty clause, and is interpolated into the query template after `WHERE`. -/
theorem company_falsy_criteria_witness :
    Company.checkCriteria [("minEmployees", JSVal.num 0), ("maxEmployees", JSVal.num 7)] =
      .ok () ∧
    (Company.checkCriteria [("minEmployees", JSVal.num 0), ("name", JSVal.str "")] = .ok () ∧
     Company.createSearchSqlStatement [("minEmployees", JSVal.num 0), ("name", JSVal.str "")] =
       { statement := "", values := [] } ∧
     Company.filterQuery [("minEmployees", JSVal.num 0), ("name", JSVal.str "")] =
       .ok (Company.queryHead ++ "" ++ Company.queryTail, [])) :=
  ⟨company_falsy_criteria.1 (JSVal.num 7),
   company_falsy_criteria.2 [("minEmployees", JSVal.num 0), ("name", JSVal.str "")]
     (by decide) (by decide)⟩
